import Mathlib

/-!
Verification of the FPGA flow orchestration service
(`backend/app/services/fpga_flow_service.py` and the four stage services it
drives).  The Python code is shallowly embedded: the four stage services are
external-tool adapters, so a pipeline run is parametrised by an `Env` giving
each adapter's behaviour (a returned `(success, output, results)` triple, or a
raised exception modelled as `Except.error`).  The orchestrator itself
(`run_complete_flow` and its helpers) is translated line by line.  The embedded
orchestrator additionally returns a trace of the adapter invocations it
performed, modelling the real-world side effect of calling a stage service;
this is the only deviation from the source signature and it is purely
observational.

Python dicts holding stage artifacts are modelled by structures of `Option`
fields (a field is `none` exactly when the key is absent, matching
`dict.get(key)`), and the `results` dict built by the orchestrator is modelled
by `FlowResults`; the bare `{}` dict returned on validation errors and on
unexpected exceptions is modelled by `none : Option FlowResults`.
-/

/-- One stage's artifact dictionary (the `results` dict a stage service
returns).  Each field models `d.get(key)` for the keys the orchestrator and
the summary reporter actually read.  Metric numbers (`statistics`,
`utilization_report`) are modelled as `Nat`-valued dictionaries; the source
stores Python ints for the synthesis statistics and floats for the
utilization percentages and programming time — the float values are
abstracted to naturals here (only their rendering, not their arithmetic, is
used by the code under verification). -/
structure StageRes where
  netlist_json : Option String := none
  fasm_file : Option String := none
  asc_file : Option String := none
  config_file : Option String := none
  bitstream_file : Option String := none
  statistics : Option (List (String × Nat)) := none
  utilization_report : Option (List (String × Nat)) := none
  bitstream_size : Option Nat := none
  programming_time : Option Nat := none
deriving DecidableEq, Repr

/-- The per-stage record the orchestrator stores under
`results['stage_results'][stage]`: `{'success': ..., 'output': ..., 'results': ...}`. -/
structure StageRecord where
  success : Bool
  output : String
  results : StageRes
deriving DecidableEq, Repr

/-- The `results` dict built by `run_complete_flow` (lines 64-72 of
`fpga_flow_service.py`).  `stage_results` is an association list in insertion
order, matching Python dict iteration order. -/
structure FlowResults where
  stages_completed : List String
  stages_failed : List String
  overall_success : Bool
  device_family : String
  device_part : String
  top_module : String
  stage_results : List (String × StageRecord)
deriving DecidableEq, Repr

/-- Outcome of invoking one stage service: either the returned
`(success, output, results)` triple, or a raised exception (its `str(e)`).
The stage services catch their own internal exceptions, but `run_complete_flow`
defends against unexpected faults with its own `try/except`, so the adapter
boundary is modelled as fallible. -/
abbrev ServiceOutcome := Except String (Bool × String × StageRes)

/-- The four stage-service adapters, with the argument lists
`run_complete_flow` passes them (verilog/netlist/impl-data/bitstream input,
top module, device family, device part, constraints / data format / verify
flag).  A pipeline run is parametrised by this environment. -/
structure Env where
  synthesize_design : String → String → String → String → Option String → ServiceOutcome
  implement_design : String → String → String → String → Option String → ServiceOutcome
  generate_bitstream : String → String → String → String → String → ServiceOutcome
  program_fpga : String → String → String → Bool → ServiceOutcome

/-- What `run_complete_flow` hands back: the `(success, output, results)`
triple of the source, plus the instrumentation trace of adapter invocations.
A trace entry `(stage, some b)` records an invocation that returned with
success flag `b`; `(stage, none)` records an invocation that raised.
`results = none` models the empty dict `{}` (returned on device-validation
failure and on unexpected exceptions). -/
structure FlowReturn where
  success : Bool
  output : String
  results : Option FlowResults
  trace : List (String × Option Bool)
deriving DecidableEq, Repr

/-- Python truthiness of the `Option String` artifact values: `None` and the
empty string are falsy (`if not netlist_json: ...`). -/
def truthyStr : Option String → Bool
  | none => false
  | some s => !(s == "")

/-- Lookup in a `Nat`-valued metric dictionary with a default, modelling
Python's `d.get(key, 0)`. -/
def dict_get_nat (d : List (String × Nat)) (key : String) (dflt : Nat) : Nat :=
  match d.lookup key with
  | some v => v
  | none => dflt

/-- Dict update `d[key] = v` on an association list: replaces the value of an
existing key in place, otherwise appends (Python insertion-order semantics). -/
def dict_set_nat (d : List (String × Nat)) (key : String) (v : Nat) : List (String × Nat) :=
  match d with
  | [] => [(key, v)]
  | (k, w) :: rest => if k == key then (k, v) :: rest else (k, w) :: dict_set_nat rest key v

/-- The device table shape shared by the four stage services:
family → device type → list of parts. -/
abbrev DeviceTable := List (String × List (String × List String))

/-- `SynthesisService.supported_devices` (synthesis_service.py lines 15-26). -/
def synthesis_supported_devices : DeviceTable :=
  [("xilinx_7series",
     [("artix7", ["xc7a35t", "xc7a50t", "xc7a100t"]),
      ("kintex7", ["xc7k70t", "xc7k160t"]),
      ("virtex7", ["xc7vx330t", "xc7vx485t"])]),
   ("lattice_ice40", [("ice40", ["hx8k", "lp8k", "up5k"])]),
   ("lattice_ecp5", [("ecp5", ["lfe5u-25f", "lfe5u-45f", "lfe5u-85f"])])]

/-- `ImplementationService.supported_devices` (implementation_service.py lines 15-26). -/
def implementation_supported_devices : DeviceTable :=
  [("xilinx_7series",
     [("artix7", ["xc7a35t", "xc7a50t", "xc7a100t"]),
      ("kintex7", ["xc7k70t", "xc7k160t"]),
      ("virtex7", ["xc7vx330t", "xc7vx485t"])]),
   ("lattice_ice40", [("ice40", ["hx8k", "lp8k", "up5k"])]),
   ("lattice_ecp5", [("ecp5", ["lfe5u-25f", "lfe5u-45f", "lfe5u-85f"])])]

/-- `BitstreamService.supported_devices` (bitstream_service.py lines 14-25). -/
def bitstream_supported_devices : DeviceTable :=
  [("xilinx_7series",
     [("artix7", ["xc7a35t", "xc7a50t", "xc7a100t"]),
      ("kintex7", ["xc7k70t", "xc7k160t"]),
      ("virtex7", ["xc7vx330t", "xc7vx485t"])]),
   ("lattice_ice40", [("ice40", ["hx8k", "lp8k", "up5k"])]),
   ("lattice_ecp5", [("ecp5", ["lfe5u-25f", "lfe5u-45f", "lfe5u-85f"])])]

/-- `ProgrammingService.supported_devices` (programming_service.py lines 14-25). -/
def programming_supported_devices : DeviceTable :=
  [("xilinx_7series",
     [("artix7", ["xc7a35t", "xc7a50t", "xc7a100t"]),
      ("kintex7", ["xc7k70t", "xc7k160t"]),
      ("virtex7", ["xc7vx330t", "xc7vx485t"])]),
   ("lattice_ice40", [("ice40", ["hx8k", "lp8k", "up5k"])]),
   ("lattice_ecp5", [("ecp5", ["lfe5u-25f", "lfe5u-45f", "lfe5u-85f"])])]

/-- `validate_device(self, device_family, device_part)`, the method body shared
verbatim by all four stage services (e.g. synthesis_service.py lines 324-334):
reject an unknown family, otherwise scan the family's device-type groups for
the part. -/
def service_validate_device (tbl : DeviceTable) (device_family device_part : String) : Bool :=
  match tbl.lookup device_family with
  | none => false
  | some family_devices => family_devices.any fun g => g.2.contains device_part

/-- `FPGAFlowService._validate_device` (fpga_flow_service.py lines 291-296):
the conjunction of the four services' `validate_device` results. -/
def flow_validate_device (device_family device_part : String) : Bool :=
  service_validate_device synthesis_supported_devices device_family device_part &&
  service_validate_device implementation_supported_devices device_family device_part &&
  service_validate_device bitstream_supported_devices device_family device_part &&
  service_validate_device programming_supported_devices device_family device_part

/-- `FPGAFlowService._get_implementation_data` (lines 298-306): pick the
placement artifact for the family, `None` for an unknown family. -/
def get_implementation_data (impl_results : StageRes) (device_family : String) : Option String :=
  if device_family == "xilinx_7series" then impl_results.fasm_file
  else if device_family == "lattice_ice40" then impl_results.asc_file
  else if device_family == "lattice_ecp5" then impl_results.config_file
  else none

/-- `FPGAFlowService._get_data_format` (lines 308-316): the family →
placement-format mapping, with the literal `'unknown'` fallback of the source. -/
def get_data_format (device_family : String) : String :=
  if device_family == "xilinx_7series" then "fasm"
  else if device_family == "lattice_ice40" then "asc"
  else if device_family == "lattice_ecp5" then "config"
  else "unknown"

/-- `FPGAFlowService.flow_stages` (lines 23-28). -/
def flow_stages : List String :=
  ["synthesis", "implementation", "bitstream_generation", "programming"]

/-- Lines 54-58 of `run_complete_flow`: default the stage list to all four
stages, and append `'programming'` when `program_fpga` is set and programming
was not already requested. -/
def effective_stages (stages : Option (List String)) (program_fpga : Bool) : List String :=
  let stages := match stages with | none => flow_stages | some s => s
  if program_fpga && !(stages.contains "programming") then stages ++ ["programming"]
  else stages

/-- Renders a Python bool in an f-string (`f"{True}"` is `"True"`). -/
def pyBool : Bool → String
  | true => "True"
  | false => "False"

/-- Models `f"{x:.1f}"` for a metric value; the source stores these metrics as
floats, abstracted here to naturals, so one decimal place renders as `.0`. -/
def formatFixed1 (n : Nat) : String := toString n ++ ".0"

/-- Models `f"{x:.2f}"` for the programming time, under the same
natural-number abstraction. -/
def formatFixed2 (n : Nat) : String := toString n ++ ".00"

/-- Models `f"{size/1024:.1f}"` for the bitstream size in KB: one decimal
digit of the exact quotient (the source formats a float; rounding of the last
digit is approximated by truncation — no claim depends on this text). -/
def formatKB (size : Nat) : String :=
  toString (size * 10 / 1024 / 10) ++ "." ++ toString (size * 10 / 1024 % 10)

/-- Python's `str.upper()` on the (ASCII) stage names, written via the
character list so that it reduces definitionally (`String.toUpper` maps the
same `Char.toUpper` over the same characters). -/
def str_to_upper (s : String) : String := String.mk (s.data.map Char.toUpper)

/-- The per-stage block of `_generate_flow_summary` (lines 339-357): for a
successful stage, a header line plus the stage-specific metric lines, each
metric read with `dict.get(key, 0)`; a failed stage contributes nothing.  The
`elif` chain of the source branches on mutually exclusive stage names, so it
is rendered as nested ifs. -/
def stage_summary (p : String × StageRecord) : List String :=
  let stage := p.1
  let stage_result := p.2
  if stage_result.success then
    [str_to_upper stage ++ " Results:"] ++
    (if stage == "synthesis" then
      match stage_result.results.statistics with
      | some stats =>
        ["  LUTs: " ++ toString (dict_get_nat stats "lut_count" 0),
         "  FFs: " ++ toString (dict_get_nat stats "ff_count" 0),
         "  Total Cells: " ++ toString (dict_get_nat stats "total_cells" 0)]
      | none => []
    else if stage == "implementation" then
      match stage_result.results.utilization_report with
      | some util =>
        ["  LUT Usage: " ++ formatFixed1 (dict_get_nat util "lut_percentage" 0) ++ "%",
         "  FF Usage: " ++ formatFixed1 (dict_get_nat util "ff_percentage" 0) ++ "%"]
      | none => []
    else if stage == "bitstream_generation" then
      match stage_result.results.bitstream_size with
      | some size =>
        ["  Bitstream Size: " ++ toString size ++ " bytes (" ++ formatKB size ++ " KB)"]
      | none => []
    else if stage == "programming" then
      match stage_result.results.programming_time with
      | some time => ["  Programming Time: " ++ formatFixed2 time ++ " seconds"]
      | none => []
    else []) ++
    [""]
  else []

/-- `FPGAFlowService._generate_flow_summary` (lines 318-359): header, ✓/✗
stage lists, then the per-stage metric blocks, joined with newlines. -/
def generate_flow_summary (results : FlowResults) : String :=
  let summary :=
    ["=== FPGA Design Flow Summary ===",
     "Device: " ++ results.device_family ++ "/" ++ results.device_part,
     "Top Module: " ++ results.top_module,
     "Overall Success: " ++ pyBool results.overall_success,
     ""]
  let summary := summary ++ ["Stages Completed:"] ++
    results.stages_completed.map (fun stage => "  ✓ " ++ stage)
  let summary := summary ++
    (if results.stages_failed.isEmpty then []
     else ["Stages Failed:"] ++ results.stages_failed.map (fun stage => "  ✗ " ++ stage))
  let summary := summary ++ [""]
  let summary := summary ++ (results.stage_results.map stage_summary).flatten
  String.intercalate "\n" summary

/-- The `except Exception` handler of `run_complete_flow` (lines 194-196):
success `False`, a wrapped message, and the bare empty dict. -/
def flow_exception (e : String) (trace : List (String × Option Bool)) : FlowReturn :=
  { success := false, output := "FPGA flow failed: " ++ e, results := none, trace := trace }

/-- Lines 186-192 of `run_complete_flow`: set `overall_success` from
`stages_failed`, render the summary, and return. -/
def flow_finish (results : FlowResults) (trace : List (String × Option Bool)) : FlowReturn :=
  let results' := { results with overall_success := results.stages_failed.length == 0 }
  { success := results'.overall_success,
    output := generate_flow_summary results',
    results := some results',
    trace := trace }

/-- Stage 4, Programming (lines 156-184): dependency check on the bitstream
record, truthiness check on the bitstream artifact, adapter invocation with
`verify=True`, then record-and-continue or record-and-halt. -/
def stage_programming (env : Env) (device_family device_part : String)
    (stages : List String) (results : FlowResults)
    (trace : List (String × Option Bool)) : FlowReturn :=
  if stages.contains "programming" then
    match results.stage_results.lookup "bitstream_generation" with
    | none =>
      { success := false,
        output := "Programming requires bitstream generation to be completed first",
        results := some results, trace := trace }
    | some bits_record =>
      if truthyStr bits_record.results.bitstream_file then
        match env.program_fpga (bits_record.results.bitstream_file.getD "")
            device_family device_part true with
        | .error e => flow_exception e (trace ++ [("programming", none)])
        | .ok (success, output, prog_results) =>
          if success then
            flow_finish
              { results with
                stages_completed := results.stages_completed ++ ["programming"],
                stage_results := results.stage_results ++
                  [("programming", StageRecord.mk success output prog_results)] }
              (trace ++ [("programming", some success)])
          else
            { success := false, output := "Programming failed: " ++ output,
              results := some { results with
                stages_failed := results.stages_failed ++ ["programming"],
                stage_results := results.stage_results ++
                  [("programming", StageRecord.mk success output prog_results)] },
              trace := trace ++ [("programming", some success)] }
      else
        { success := false, output := "No bitstream data available",
          results := some results, trace := trace }
  else
    flow_finish results trace

/-- Stage 3, Bitstream Generation (lines 125-154): dependency check on the
implementation record, family-specific artifact extraction, format
resolution, adapter invocation, then record-and-continue or record-and-halt. -/
def stage_bitstream (env : Env) (top_module device_family device_part : String)
    (stages : List String) (results : FlowResults)
    (trace : List (String × Option Bool)) : FlowReturn :=
  if stages.contains "bitstream_generation" then
    match results.stage_results.lookup "implementation" with
    | none =>
      { success := false,
        output := "Bitstream generation requires implementation to be completed first",
        results := some results, trace := trace }
    | some impl_record =>
      if truthyStr (get_implementation_data impl_record.results device_family) then
        match env.generate_bitstream
            ((get_implementation_data impl_record.results device_family).getD "")
            top_module device_family device_part (get_data_format device_family) with
        | .error e => flow_exception e (trace ++ [("bitstream_generation", none)])
        | .ok (success, output, bitstream_results) =>
          if success then
            stage_programming env device_family device_part stages
              { results with
                stages_completed := results.stages_completed ++ ["bitstream_generation"],
                stage_results := results.stage_results ++
                  [("bitstream_generation", StageRecord.mk success output bitstream_results)] }
              (trace ++ [("bitstream_generation", some success)])
          else
            { success := false, output := "Bitstream generation failed: " ++ output,
              results := some { results with
                stages_failed := results.stages_failed ++ ["bitstream_generation"],
                stage_results := results.stage_results ++
                  [("bitstream_generation", StageRecord.mk success output bitstream_results)] },
              trace := trace ++ [("bitstream_generation", some success)] }
      else
        { success := false, output := "No implementation data available",
          results := some results, trace := trace }
  else
    stage_programming env device_family device_part stages results trace

/-- Stage 2, Implementation (lines 95-123): dependency check on the synthesis
record, truthiness check on the netlist, adapter invocation, then
record-and-continue or record-and-halt. -/
def stage_implementation (env : Env) (top_module device_family device_part : String)
    (constraints : Option String) (stages : List String) (results : FlowResults)
    (trace : List (String × Option Bool)) : FlowReturn :=
  if stages.contains "implementation" then
    match results.stage_results.lookup "synthesis" with
    | none =>
      { success := false,
        output := "Implementation requires synthesis to be completed first",
        results := some results, trace := trace }
    | some synth_record =>
      if truthyStr synth_record.results.netlist_json then
        match env.implement_design (synth_record.results.netlist_json.getD "")
            top_module device_family device_part constraints with
        | .error e => flow_exception e (trace ++ [("implementation", none)])
        | .ok (success, output, impl_results) =>
          if success then
            stage_bitstream env top_module device_family device_part stages
              { results with
                stages_completed := results.stages_completed ++ ["implementation"],
                stage_results := results.stage_results ++
                  [("implementation", StageRecord.mk success output impl_results)] }
              (trace ++ [("implementation", some success)])
          else
            { success := false, output := "Implementation failed: " ++ output,
              results := some { results with
                stages_failed := results.stages_failed ++ ["implementation"],
                stage_results := results.stage_results ++
                  [("implementation", StageRecord.mk success output impl_results)] },
              trace := trace ++ [("implementation", some success)] }
      else
        { success := false, output := "No netlist available from synthesis",
          results := some results, trace := trace }
  else
    stage_bitstream env top_module device_family device_part stages results trace

/-- Stage 1, Synthesis (lines 74-93): adapter invocation on the Verilog
source, then record-and-continue or record-and-halt. -/
def stage_synthesis (env : Env) (verilog_code top_module device_family device_part : String)
    (constraints : Option String) (stages : List String) (results : FlowResults)
    (trace : List (String × Option Bool)) : FlowReturn :=
  if stages.contains "synthesis" then
    match env.synthesize_design verilog_code top_module device_family device_part constraints with
    | .error e => flow_exception e (trace ++ [("synthesis", none)])
    | .ok (success, output, synth_results) =>
      if success then
        stage_implementation env top_module device_family device_part constraints stages
          { results with
            stages_completed := results.stages_completed ++ ["synthesis"],
            stage_results := results.stage_results ++
              [("synthesis", StageRecord.mk success output synth_results)] }
          (trace ++ [("synthesis", some success)])
      else
        { success := false, output := "Synthesis failed: " ++ output,
          results := some { results with
            stages_failed := results.stages_failed ++ ["synthesis"],
            stage_results := results.stage_results ++
              [("synthesis", StageRecord.mk success output synth_results)] },
          trace := trace ++ [("synthesis", some success)] }
  else
    stage_implementation env top_module device_family device_part constraints stages results trace

/-- `FPGAFlowService.run_complete_flow` (lines 30-196): resolve the effective
stage list, validate the device up front (returning the bare `{}` on an
unsupported device), then run the four stage blocks in order starting from
the freshly initialised results dict. -/
def run_complete_flow (env : Env) (verilog_code top_module device_family device_part : String)
    (constraints : Option String := none) (stages : Option (List String) := none)
    (program_fpga : Bool := false) : FlowReturn :=
  let stages := effective_stages stages program_fpga
  if !(flow_validate_device device_family device_part) then
    { success := false,
      output := "Unsupported device: " ++ device_family ++ "/" ++ device_part,
      results := none, trace := [] }
  else
    stage_synthesis env verilog_code top_module device_family device_part constraints stages
      { stages_completed := [], stages_failed := [], overall_success := false,
        device_family := device_family, device_part := device_part,
        top_module := top_module, stage_results := [] }
      []

/-- Position of a stage in the fixed total order
synthesis ≺ implementation ≺ bitstream_generation ≺ programming. -/
def stage_order_index (s : String) : Nat :=
  if s == "synthesis" then 0
  else if s == "implementation" then 1
  else if s == "bitstream_generation" then 2
  else if s == "programming" then 3
  else 4

/-- The halt-message prefix `run_complete_flow` puts in front of a failed
stage's diagnostic output. -/
def stage_fail_message (s : String) : String :=
  if s == "synthesis" then "Synthesis failed: "
  else if s == "implementation" then "Implementation failed: "
  else if s == "bitstream_generation" then "Bitstream generation failed: "
  else "Programming failed: "

/-- Invariant holding whenever control reaches the stage block of index `k`
inside `run_complete_flow`: no failure recorded yet, `overall_success` still
at its initialisation value, every adapter invoked so far returned success
and belongs to an earlier stage, and every stage record stored so far belongs
to an earlier stage. -/
def FlowInv (k : Nat) (results : FlowResults) (trace : List (String × Option Bool)) : Prop :=
  results.stages_failed = [] ∧
  results.overall_success = false ∧
  (∀ u b, (u, b) ∈ trace → b = some true ∧ stage_order_index u < k) ∧
  (∀ u rec, (u, rec) ∈ results.stage_results → stage_order_index u < k)

/-- The behaviour every `FlowReturn` produced by the orchestrator satisfies:
(1) if some adapter invocation reported failure, that stage is the sole entry
of `stages_failed`, the run result is the partial results dict, no adapter of
a later stage was invoked, and the run output is that stage's diagnostic text
behind the stage's halt prefix; (2) `overall_success` is only ever true with
an empty `stages_failed`. -/
def GoodReturn (R : FlowReturn) : Prop :=
  (∀ s, (s, some false) ∈ R.trace →
    ∃ res, R.results = some res ∧
      res.stages_failed = [s] ∧
      R.success = false ∧
      (∀ u b, (u, b) ∈ R.trace → stage_order_index u ≤ stage_order_index s) ∧
      (∃ rec, res.stage_results.lookup s = some rec ∧ rec.success = false ∧
        R.output = stage_fail_message s ++ rec.output)) ∧
  (∀ res, R.results = some res → res.overall_success = true → res.stages_failed = [])

/-- An environment in which every stage adapter reports success and produces
the artifact the next stage needs (for a `xilinx_7series` target). -/
def env_ok : Env where
  synthesize_design := fun _ _ _ _ _ =>
    .ok (true, "synthesis ok", { netlist_json := some "netlist" })
  implement_design := fun _ _ _ _ _ =>
    .ok (true, "implementation ok", { fasm_file := some "fasm" })
  generate_bitstream := fun _ _ _ _ _ =>
    .ok (true, "bitstream ok", { bitstream_file := some "bits" })
  program_fpga := fun _ _ _ _ => .ok (true, "programmed", {})

/-- An environment in which every stage adapter reports failure with no
artifacts; used for runs that never reach an adapter. -/
def env_fail : Env where
  synthesize_design := fun _ _ _ _ _ => .ok (false, "", {})
  implement_design := fun _ _ _ _ _ => .ok (false, "", {})
  generate_bitstream := fun _ _ _ _ _ => .ok (false, "", {})
  program_fpga := fun _ _ _ _ => .ok (false, "", {})

/-- Like `env_ok` but the implementation adapter reports failure. -/
def env_impl_fails : Env :=
  { env_ok with implement_design := fun _ _ _ _ _ => .ok (false, "route error", {}) }

/-- Like `env_ok` but the implementation adapter raises an unexpected
exception. -/
def env_impl_raises : Env :=
  { env_ok with implement_design := fun _ _ _ _ _ => .error "boom" }

/-- Python substring test `pat in s` on the character list of `s`: some
suffix of `s` starts with `pat`. -/
def list_has_sub (pat : List Char) : List Char → Bool
  | [] => pat.isEmpty
  | c :: cs => pat.isPrefixOf (c :: cs) || list_has_sub pat cs

/-- Python's `pat in line` substring operator. -/
def str_contains_sub (s pat : String) : Bool := list_has_sub pat.toList s.toList

/-- Split a character list at every occurrence of `c`, keeping empty
segments. -/
def split_on_char (c : Char) : List Char → List (List Char)
  | [] => [[]]
  | d :: ds =>
    if d == c then [] :: split_on_char c ds
    else
      match split_on_char c ds with
      | [] => [[d]]
      | h :: t => (d :: h) :: t

/-- Python's `output.split('\n')` (empty input gives `[""]`, empty segments
are kept), written over the character list so that it reduces
definitionally. -/
def py_split_newline (s : String) : List String :=
  (split_on_char (Char.ofNat 10) s.data).map String.mk

/-- Numeric value of a run of decimal digits. -/
def digits_to_nat (ds : List Char) : Nat :=
  ds.foldl (fun acc c => acc * 10 + (c.toNat - '0'.toNat)) 0

/-- Worker for `extract_number`: find the first digit and read the maximal
digit run starting there. -/
def extract_number_aux : List Char → Nat
  | [] => 0
  | c :: cs =>
    if c.isDigit then digits_to_nat (c :: cs.takeWhile Char.isDigit)
    else extract_number_aux cs

/-- `SynthesisService._extract_number` (synthesis_service.py lines 318-322):
the first decimal number in the text via `re.search(r'(\d+)', text)`, `0`
when there is none. -/
def extract_number (text : String) : Nat := extract_number_aux text.toList

/-- `SynthesisService._parse_synthesis_stats` (lines 285-316): start from a
dict with all six metrics *present and zero*, then overwrite a metric for
each matching `Number of cells:` line.  A metric absent from the tool output
is therefore recorded as `0`, indistinguishable from a genuine zero count. -/
def parse_synthesis_stats (output : String) : List (String × Nat) :=
  (py_split_newline output).foldl
    (fun stats line =>
      if str_contains_sub line "Number of cells:" then
        if str_contains_sub line "LUT" then
          dict_set_nat stats "lut_count" (extract_number line)
        else if str_contains_sub line "FF" then
          dict_set_nat stats "ff_count" (extract_number line)
        else if str_contains_sub line "Memory" then
          dict_set_nat stats "memory_count" (extract_number line)
        else if str_contains_sub line "DSP" then
          dict_set_nat stats "dsp_count" (extract_number line)
        else if str_contains_sub line "IO" then
          dict_set_nat stats "io_count" (extract_number line)
        else if str_contains_sub line "Total" then
          dict_set_nat stats "total_cells" (extract_number line)
        else stats
      else stats)
    [("lut_count", 0), ("ff_count", 0), ("memory_count", 0), ("dsp_count", 0),
     ("io_count", 0), ("total_cells", 0)]

/-- All `(family, part)` pairs listed in a device table, family by family and
group by group. -/
def table_pairs (t : DeviceTable) : List (String × String) :=
  t.flatMap fun e => e.2.flatMap fun g => g.2.map fun part => (e.1, part)

/-- A pipeline result whose synthesis statistics dict lacks the `lut_count`
key: the failing input for C10. -/
def missing_metric_result : FlowResults :=
  { stages_completed := ["synthesis"], stages_failed := [], overall_success := true,
    device_family := "xilinx_7series", device_part := "xc7a35t", top_module := "top",
    stage_results :=
      [("synthesis", ⟨true, "ok",
        { statistics := some [("ff_count", 2), ("total_cells", 3)] }⟩)] }

/-- The results dict of a fully successful default-stage run of `env_ok`. -/
def res_ok : FlowResults :=
  { stages_completed := ["synthesis", "implementation", "bitstream_generation",
      "programming"],
    stages_failed := [], overall_success := true,
    device_family := "xilinx_7series", device_part := "xc7a35t", top_module := "top",
    stage_results :=
      [("synthesis", ⟨true, "synthesis ok", { netlist_json := some "netlist" }⟩),
       ("implementation", ⟨true, "implementation ok", { fasm_file := some "fasm" }⟩),
       ("bitstream_generation", ⟨true, "bitstream ok", { bitstream_file := some "bits" }⟩),
       ("programming", ⟨true, "programmed", {}⟩)] }

lemma lookup_append_of_not_mem {l₁ l₂ : List (String × StageRecord)} {s : String}
    (h : ∀ u rec, (u, rec) ∈ l₁ → u ≠ s) : (l₁ ++ l₂).lookup s = l₂.lookup s := by
  induction l₁ with
  | nil => rfl
  | cons a l ih =>
    obtain ⟨u, rec⟩ := a
    have hu : u ≠ s := h u rec (by simp)
    have : (s == u) = false := by
      simp only [beq_eq_false_iff_ne]
      exact fun hs => hu hs.symm
    simp only [List.cons_append, List.lookup, this]
    exact ih fun u' rec' hm => h u' rec' (by simp [hm])

lemma goodReturn_finish {results : FlowResults} {trace : List (String × Option Bool)}
    (hfail : results.stages_failed = [])
    (hnf : ∀ s, (s, some false) ∉ trace) : GoodReturn (flow_finish results trace) := by
  constructor
  · intro s hs
    exact absurd hs (hnf s)
  · intro res hres _
    simp only [flow_finish, Option.some.injEq] at hres
    subst hres
    simp [hfail]

lemma goodReturn_early {msg : String} {results : FlowResults}
    {trace : List (String × Option Bool)}
    (hov : results.overall_success = false)
    (hnf : ∀ s, (s, some false) ∉ trace) :
    GoodReturn ⟨false, msg, some results, trace⟩ := by
  constructor
  · intro s hs
    exact absurd hs (hnf s)
  · intro res hres htrue
    simp only [Option.some.injEq] at hres
    subst hres
    rw [hov] at htrue
    exact absurd htrue (by simp)

lemma goodReturn_exception {e : String} {sname : String}
    {trace : List (String × Option Bool)}
    (hnf : ∀ s, (s, some false) ∉ trace) :
    GoodReturn (flow_exception e (trace ++ [(sname, none)])) := by
  constructor
  · intro s hs
    simp only [flow_exception, List.mem_append, List.mem_singleton, Prod.mk.injEq] at hs
    rcases hs with hs | ⟨_, hs⟩
    · exact absurd hs (hnf s)
    · exact absurd hs (by simp)
  · intro res hres
    simp [flow_exception] at hres

lemma flowInv_not_false {k : Nat} {results : FlowResults}
    {trace : List (String × Option Bool)} (h : FlowInv k results trace) :
    ∀ s, (s, some false) ∉ trace := by
  intro s hs
  have := (h.2.2.1 s (some false) hs).1
  simp at this

lemma flowInv_mono {k k' : Nat} {results : FlowResults}
    {trace : List (String × Option Bool)} (hk : k ≤ k') (h : FlowInv k results trace) :
    FlowInv k' results trace := by
  obtain ⟨h1, h2, h3, h4⟩ := h
  exact ⟨h1, h2,
    fun u b hm => ⟨(h3 u b hm).1, lt_of_lt_of_le (h3 u b hm).2 hk⟩,
    fun u rec hm => lt_of_lt_of_le (h4 u rec hm) hk⟩

lemma flowInv_step {k : Nat} {results : FlowResults} {trace : List (String × Option Bool)}
    {s : String} {rec : StageRecord}
    (h : FlowInv k results trace) (hs : stage_order_index s = k) :
    FlowInv (k + 1)
      { results with
        stages_completed := results.stages_completed ++ [s],
        stage_results := results.stage_results ++ [(s, rec)] }
      (trace ++ [(s, some true)]) := by
  obtain ⟨h1, h2, h3, h4⟩ := h
  refine ⟨h1, h2, ?_, ?_⟩
  · intro u b hm
    simp only [List.mem_append, List.mem_singleton, Prod.mk.injEq] at hm
    rcases hm with hm | ⟨hu, hb⟩
    · exact ⟨(h3 u b hm).1, Nat.lt_succ_of_lt (h3 u b hm).2⟩
    · subst hu; subst hb; exact ⟨rfl, by omega⟩
  · intro u rec' hm
    simp only [List.mem_append, List.mem_singleton, Prod.mk.injEq] at hm
    rcases hm with hm | ⟨hu, _⟩
    · exact Nat.lt_succ_of_lt (h4 u rec' hm)
    · subst hu; omega

lemma goodReturn_of_fail {results : FlowResults} {trace : List (String × Option Bool)}
    {s : String} {rec : StageRecord}
    (hInv : FlowInv (stage_order_index s) results trace)
    (hrec : rec.success = false) :
    GoodReturn
      ⟨false, stage_fail_message s ++ rec.output,
       some { results with
         stages_failed := results.stages_failed ++ [s],
         stage_results := results.stage_results ++ [(s, rec)] },
       trace ++ [(s, some false)]⟩ := by
  obtain ⟨h1, h2, h3, h4⟩ := hInv
  constructor
  · intro s' hs'
    simp only [List.mem_append, List.mem_singleton, Prod.mk.injEq] at hs'
    rcases hs' with hs' | ⟨hu, _⟩
    · exact absurd ((h3 s' (some false) hs').1) (by simp)
    · subst hu
      refine ⟨_, rfl, by simp [h1], rfl, ?_, ?_⟩
      · intro u b hm
        simp only [List.mem_append, List.mem_singleton, Prod.mk.injEq] at hm
        rcases hm with hm | ⟨hu', _⟩
        · exact le_of_lt (h3 u b hm).2
        · subst hu'; exact le_refl _
      · refine ⟨rec, ?_, hrec, rfl⟩
        rw [lookup_append_of_not_mem fun u rec' hm hus => by
          have hlt := h4 u rec' hm
          rw [hus] at hlt
          omega]
        simp [List.lookup]
  · intro res hres htrue
    simp only [Option.some.injEq] at hres
    subst hres
    rw [h2] at htrue
    exact absurd htrue (by simp)

lemma stage_programming_good (env : Env) (device_family device_part : String)
    (stages : List String) {results : FlowResults} {trace : List (String × Option Bool)}
    (hInv : FlowInv 3 results trace) :
    GoodReturn (stage_programming env device_family device_part stages results trace) := by
  have hnf := flowInv_not_false hInv
  unfold stage_programming
  split
  · split
    · exact goodReturn_early hInv.2.1 hnf
    · split
      · split
        · exact goodReturn_exception hnf
        · rename_i success output prog_results heq
          split
          · rename_i hsucc
            apply goodReturn_finish
            · exact hInv.1
            · intro s hs
              simp only [List.mem_append, List.mem_singleton, Prod.mk.injEq] at hs
              rcases hs with hs | ⟨_, hb⟩
              · exact hnf s hs
              · rw [hsucc] at hb
                exact absurd hb (by simp)
          · rename_i hsucc
            have hb : success = false := by simpa using hsucc
            subst hb
            exact goodReturn_of_fail
              (by simpa [show stage_order_index "programming" = 3 from rfl] using hInv) rfl
      · exact goodReturn_early hInv.2.1 hnf
  · exact goodReturn_finish hInv.1 hnf

lemma stage_bitstream_good (env : Env) (top_module device_family device_part : String)
    (stages : List String) {results : FlowResults} {trace : List (String × Option Bool)}
    (hInv : FlowInv 2 results trace) :
    GoodReturn (stage_bitstream env top_module device_family device_part stages results trace) := by
  have hnf := flowInv_not_false hInv
  unfold stage_bitstream
  split
  · split
    · exact goodReturn_early hInv.2.1 hnf
    · split
      · split
        · exact goodReturn_exception hnf
        · rename_i success output bitstream_results heq
          split
          · rename_i hsucc
            subst hsucc
            exact stage_programming_good env device_family device_part stages
              (flowInv_step hInv rfl)
          · rename_i hsucc
            have hb : success = false := by simpa using hsucc
            subst hb
            exact goodReturn_of_fail
              (by simpa [show stage_order_index "bitstream_generation" = 2 from rfl] using hInv)
              rfl
      · exact goodReturn_early hInv.2.1 hnf
  · exact stage_programming_good env device_family device_part stages
      (flowInv_mono (by omega) hInv)

lemma stage_implementation_good (env : Env) (top_module device_family device_part : String)
    (constraints : Option String) (stages : List String)
    {results : FlowResults} {trace : List (String × Option Bool)}
    (hInv : FlowInv 1 results trace) :
    GoodReturn (stage_implementation env top_module device_family device_part constraints
      stages results trace) := by
  have hnf := flowInv_not_false hInv
  unfold stage_implementation
  split
  · split
    · exact goodReturn_early hInv.2.1 hnf
    · split
      · split
        · exact goodReturn_exception hnf
        · rename_i success output impl_results heq
          split
          · rename_i hsucc
            subst hsucc
            exact stage_bitstream_good env top_module device_family device_part stages
              (flowInv_step hInv rfl)
          · rename_i hsucc
            have hb : success = false := by simpa using hsucc
            subst hb
            exact goodReturn_of_fail
              (by simpa [show stage_order_index "implementation" = 1 from rfl] using hInv)
              rfl
      · exact goodReturn_early hInv.2.1 hnf
  · exact stage_bitstream_good env top_module device_family device_part stages
      (flowInv_mono (by omega) hInv)

lemma stage_synthesis_good (env : Env)
    (verilog_code top_module device_family device_part : String)
    (constraints : Option String) (stages : List String)
    {results : FlowResults} {trace : List (String × Option Bool)}
    (hInv : FlowInv 0 results trace) :
    GoodReturn (stage_synthesis env verilog_code top_module device_family device_part
      constraints stages results trace) := by
  have hnf := flowInv_not_false hInv
  unfold stage_synthesis
  split
  · split
    · exact goodReturn_exception hnf
    · rename_i success output synth_results heq
      split
      · rename_i hsucc
        subst hsucc
        exact stage_implementation_good env top_module device_family device_part constraints
          stages (flowInv_step hInv rfl)
      · rename_i hsucc
        have hb : success = false := by simpa using hsucc
        subst hb
        exact goodReturn_of_fail
          (by simpa [show stage_order_index "synthesis" = 0 from rfl] using hInv) rfl
  · exact stage_implementation_good env top_module device_family device_part constraints
      stages (flowInv_mono (by omega) hInv)

/-- Every pipeline run satisfies `GoodReturn`: first failure halts the run
with exactly that stage in `stages_failed`, and `overall_success` never holds
alongside a recorded failure. -/
lemma run_complete_flow_good (env : Env)
    (verilog_code top_module device_family device_part : String)
    (constraints : Option String) (stages : Option (List String)) (program_fpga : Bool) :
    GoodReturn (run_complete_flow env verilog_code top_module device_family device_part
      constraints stages program_fpga) := by
  unfold run_complete_flow
  split
  · constructor
    · intro s hs
      simp at hs
    · intro res hres
      simp at hres
  · exact stage_synthesis_good env verilog_code top_module device_family device_part
      constraints (effective_stages stages program_fpga)
      ⟨rfl, rfl, by intro u b hm; simp at hm, by intro u rec hm; simp at hm⟩

/-- C5: for every (device_family, device_part) pair, the orchestrator's
`_validate_device` (the conjunction of the four services' `validate_device`
results) returns the same boolean as each single service's `validate_device`,
because the four services' `supported_devices` tables are identical. -/
theorem C5_validation_conjunction_equals_each_service :
    synthesis_supported_devices = implementation_supported_devices ∧
    synthesis_supported_devices = bitstream_supported_devices ∧
    synthesis_supported_devices = programming_supported_devices ∧
    ∀ device_family device_part,
      flow_validate_device device_family device_part =
        service_validate_device synthesis_supported_devices device_family device_part ∧
      flow_validate_device device_family device_part =
        service_validate_device implementation_supported_devices device_family device_part ∧
      flow_validate_device device_family device_part =
        service_validate_device bitstream_supported_devices device_family device_part ∧
      flow_validate_device device_family device_part =
        service_validate_device programming_supported_devices device_family device_part := by
  refine ⟨rfl, rfl, rfl, fun f p => ?_⟩
  have h2 : implementation_supported_devices = synthesis_supported_devices := rfl
  have h3 : bitstream_supported_devices = synthesis_supported_devices := rfl
  have h4 : programming_supported_devices = synthesis_supported_devices := rfl
  unfold flow_validate_device
  rw [h2, h3, h4]
  simp [Bool.and_self]

/-- C6: `validate_device` returns true exactly for the (family, part) pairs
listed in the service's `supported_devices` table; in particular it is false
for an unknown family, an unknown part, and a known part attributed to the
wrong family such as `xc7a35t` claimed for `lattice_ice40`. -/
theorem C6_validate_device_iff_listed :
    (∀ device_family device_part,
      service_validate_device synthesis_supported_devices device_family device_part = true ↔
      (device_family, device_part) ∈ table_pairs synthesis_supported_devices) ∧
    service_validate_device synthesis_supported_devices "lattice_ice40" "xc7a35t" = false ∧
    service_validate_device synthesis_supported_devices "intel_cyclone" "xc7a35t" = false ∧
    service_validate_device synthesis_supported_devices "xilinx_7series" "xc7a200t" = false := by
  refine ⟨fun f p => ?_, rfl, rfl, rfl⟩
  by_cases h1 : f = "xilinx_7series"
  · subst h1
    simp [service_validate_device, synthesis_supported_devices, table_pairs, List.lookup]
    tauto
  · by_cases h2 : f = "lattice_ice40"
    · subst h2
      simp [service_validate_device, synthesis_supported_devices, table_pairs, List.lookup]
    · by_cases h3 : f = "lattice_ecp5"
      · subst h3
        simp [service_validate_device, synthesis_supported_devices, table_pairs, List.lookup]
      · have b1 : (f == "xilinx_7series") = false := by simpa using h1
        have b2 : (f == "lattice_ice40") = false := by simpa using h2
        have b3 : (f == "lattice_ecp5") = false := by simpa using h3
        simp [service_validate_device, synthesis_supported_devices, table_pairs, List.lookup,
          b1, b2, b3, h1, h2, h3]

/-- C6 witness: the iff evaluated at a listed pair. -/
theorem C6_witness :
    service_validate_device synthesis_supported_devices "xilinx_7series" "xc7a35t" = true :=
  (C6_validate_device_iff_listed.1 "xilinx_7series" "xc7a35t").mpr (by decide)

/-- C8 counterexample: on a family outside the enum, `_get_data_format` does
not fail fast — it silently returns the sentinel string `'unknown'`, which is
none of the three legitimate formats. -/
theorem C8_counterexample :
    get_data_format "not_a_family" = "unknown" ∧
    "unknown" ∉ ["fasm", "asc", "config"] := ⟨rfl, by decide⟩

/-- C8 amended: the family-to-placement-format mapping is total over the
closed three-family enum and assigns the three families pairwise distinct
formats; for a family outside the enum it silently returns the sentinel
string `'unknown'` rather than failing fast. -/
theorem C8_amended_data_format_total_with_sentinel :
    (get_data_format "xilinx_7series" = "fasm" ∧
     get_data_format "lattice_ice40" = "asc" ∧
     get_data_format "lattice_ecp5" = "config") ∧
    ("fasm" ≠ "asc" ∧ "fasm" ≠ "config" ∧ "asc" ≠ "config") ∧
    (∀ device_family,
      device_family ∉ ["xilinx_7series", "lattice_ice40", "lattice_ecp5"] →
      get_data_format device_family = "unknown") := by
  refine ⟨⟨rfl, rfl, rfl⟩, ⟨by decide, by decide, by decide⟩, fun f hf => ?_⟩
  simp only [List.mem_cons, List.not_mem_nil, or_false, not_or] at hf
  obtain ⟨h1, h2, h3⟩ := hf
  have b1 : (f == "xilinx_7series") = false := by simpa using h1
  have b2 : (f == "lattice_ice40") = false := by simpa using h2
  have b3 : (f == "lattice_ecp5") = false := by simpa using h3
  simp [get_data_format, b1, b2, b3]

/-- C8 witness: the sentinel branch of the amended statement evaluated at a
concrete out-of-enum family. -/
theorem C8_witness :
    "some_future_family" ∉ ["xilinx_7series", "lattice_ice40", "lattice_ecp5"] ∧
    get_data_format "some_future_family" = "unknown" :=
  ⟨by decide,
   C8_amended_data_format_total_with_sentinel.2.2 "some_future_family" (by decide)⟩

/-- C10: contrary to the claim, a metric absent from the stage's parsed
results is not omitted — `_generate_flow_summary` renders it as the zero
default (`stats.get('lut_count', 0)`), producing the line `  LUTs: 0` for a
statistics dict with no `lut_count` key; moreover `_parse_synthesis_stats`
itself records every metric absent from the tool output as a present `0`. -/
theorem C10_missing_metric_rendered_as_zero :
    generate_flow_summary missing_metric_result = String.intercalate "\n"
      ["=== FPGA Design Flow Summary ===",
       "Device: xilinx_7series/xc7a35t",
       "Top Module: top",
       "Overall Success: True",
       "",
       "Stages Completed:",
       "  ✓ synthesis",
       "",
       "SYNTHESIS Results:",
       "  LUTs: 0",
       "  FFs: 2",
       "  Total Cells: 3",
       ""] ∧
    parse_synthesis_stats "" =
      [("lut_count", 0), ("ff_count", 0), ("memory_count", 0), ("dsp_count", 0),
       ("io_count", 0), ("total_cells", 0)] := ⟨rfl, rfl⟩

/-- C1: in every pipeline run in which a stage adapter invocation reports
failure, the orchestrator records exactly that stage in `stages_failed`,
invokes no later stage's adapter, and returns the partial results dict with
an unsuccessful flag; in particular, when stage 2 (implementation) of a
4-stage run fails, `stages_completed = ["synthesis"]`,
`stages_failed = ["implementation"]`, and the bitstream and programming
adapters are never invoked. -/
theorem C1_first_failure_halts_pipeline :
    (∀ env verilog_code top_module device_family device_part constraints stages
        program_fpga s,
      (s, some false) ∈ (run_complete_flow env verilog_code top_module device_family
        device_part constraints stages program_fpga).trace →
      ∃ res, (run_complete_flow env verilog_code top_module device_family device_part
          constraints stages program_fpga).results = some res ∧
        res.stages_failed = [s] ∧
        (run_complete_flow env verilog_code top_module device_family device_part
          constraints stages program_fpga).success = false ∧
        (∀ u b, (u, b) ∈ (run_complete_flow env verilog_code top_module device_family
            device_part constraints stages program_fpga).trace →
          stage_order_index u ≤ stage_order_index s)) ∧
    (∀ env verilog_code top_module device_family device_part constraints o₁ r₁ o₂ r₂,
      flow_validate_device device_family device_part = true →
      env.synthesize_design verilog_code top_module device_family device_part constraints =
        .ok (true, o₁, r₁) →
      truthyStr r₁.netlist_json = true →
      env.implement_design (r₁.netlist_json.getD "") top_module device_family device_part
        constraints = .ok (false, o₂, r₂) →
      (run_complete_flow env verilog_code top_module device_family device_part constraints
        none false).success = false ∧
      (run_complete_flow env verilog_code top_module device_family device_part constraints
        none false).trace = [("synthesis", some true), ("implementation", some false)] ∧
      ∃ res, (run_complete_flow env verilog_code top_module device_family device_part
          constraints none false).results = some res ∧
        res.stages_completed = ["synthesis"] ∧ res.stages_failed = ["implementation"] ∧
        res.stage_results.lookup "bitstream_generation" = none ∧
        res.stage_results.lookup "programming" = none) := by
  constructor
  · intro env v t f p c stg flag s hs
    obtain ⟨res, h1, h2, h3, h4, -⟩ :=
      (run_complete_flow_good env v t f p c stg flag).1 s hs
    exact ⟨res, h1, h2, h3, h4⟩
  · intro env v t f p c o₁ r₁ o₂ r₂ hv hsynth htr himpl
    simp [run_complete_flow, effective_stages, flow_stages, stage_synthesis,
      stage_implementation, hv, hsynth, htr, himpl, List.lookup]
    refine ⟨fun a b h => ?_, fun a b h => ?_⟩ <;>
      rcases h with ⟨rfl, -⟩ | ⟨rfl, -⟩ <;> decide

/-- C1 witness: the stage-2-fails scenario instantiated with a concrete
environment whose implementation adapter reports failure. -/
theorem C1_witness :
    (run_complete_flow env_impl_fails "v" "top" "xilinx_7series" "xc7a35t" none none
      false).success = false ∧
    (run_complete_flow env_impl_fails "v" "top" "xilinx_7series" "xc7a35t" none none
      false).trace = [("synthesis", some true), ("implementation", some false)] ∧
    ∃ res, (run_complete_flow env_impl_fails "v" "top" "xilinx_7series" "xc7a35t" none none
        false).results = some res ∧
      res.stages_completed = ["synthesis"] ∧ res.stages_failed = ["implementation"] ∧
      res.stage_results.lookup "bitstream_generation" = none ∧
      res.stage_results.lookup "programming" = none :=
  C1_first_failure_halts_pipeline.2 env_impl_fails "v" "top" "xilinx_7series" "xc7a35t"
    none "synthesis ok" { netlist_json := some "netlist" } "route error" {} rfl rfl rfl rfl

/-- C2 counterexample: requesting implementation without synthesis on a valid
device returns the dependency message, but `stages_failed` is `[]`, not
`["implementation"]` — the failing stage is never appended on the
dependency-error path. -/
theorem C2_counterexample :
    (run_complete_flow env_fail "v" "top" "xilinx_7series" "xc7a35t" none
      (some ["implementation"]) false).results.map FlowResults.stages_failed = some [] ∧
    (run_complete_flow env_fail "v" "top" "xilinx_7series" "xc7a35t" none
      (some ["implementation"]) false).output =
      "Implementation requires synthesis to be completed first" ∧
    some ([] : List String) ≠ some ["implementation"] := ⟨rfl, rfl, by decide⟩

/-- C2 amended: when implementation is requested without synthesis, the run
returns unsuccessfully with the dependency message before invoking any
adapter, with `stages_completed = []` — but also `stages_failed = []`: the
dependency error is reported only through the output message, never through
`stages_failed`. -/
theorem C2_amended_dependency_error_shape :
    ∀ env verilog_code top_module device_family device_part constraints,
      flow_validate_device device_family device_part = true →
      run_complete_flow env verilog_code top_module device_family device_part constraints
        (some ["implementation"]) false =
      { success := false,
        output := "Implementation requires synthesis to be completed first",
        results := some
          { stages_completed := [], stages_failed := [], overall_success := false,
            device_family := device_family, device_part := device_part,
            top_module := top_module, stage_results := [] },
        trace := [] } := by
  intro env v t f p c hv
  simp [run_complete_flow, effective_stages, stage_synthesis, stage_implementation,
    hv, List.lookup]

/-- C2 witness: the amended statement instantiated at a concrete valid
device. -/
theorem C2_witness :
    run_complete_flow env_fail "v" "top" "xilinx_7series" "xc7a35t" none
      (some ["implementation"]) false =
    { success := false,
      output := "Implementation requires synthesis to be completed first",
      results := some
        { stages_completed := [], stages_failed := [], overall_success := false,
          device_family := "xilinx_7series", device_part := "xc7a35t",
          top_module := "top", stage_results := [] },
      trace := [] } :=
  C2_amended_dependency_error_shape env_fail "v" "top" "xilinx_7series" "xc7a35t" none rfl

/-- C3 counterexample: a dependency-error return has `overall_success = false`
with `stages_failed = []`, so "overall_success iff stages_failed empty" fails
on that return path. -/
theorem C3_counterexample :
    (run_complete_flow env_fail "v" "top" "lattice_ice40" "hx8k" none
      (some ["bitstream_generation"]) false).results.map
      (fun r => (r.overall_success, r.stages_failed)) = some (false, []) ∧
    ¬((false = true) ↔ ([] : List String) = []) := ⟨rfl, by simp⟩

/-- C3 amended: `overall_success` implies `stages_failed` is empty on every
return path; the converse fails on dependency-error returns, where
`stages_failed` is empty but `overall_success` remains false. -/
theorem C3_amended_overall_success_implies_no_failures :
    ∀ env verilog_code top_module device_family device_part constraints stages
        program_fpga res,
      (run_complete_flow env verilog_code top_module device_family device_part constraints
        stages program_fpga).results = some res →
      res.overall_success = true → res.stages_failed = [] :=
  fun env v t f p c stg flag res hres =>
    (run_complete_flow_good env v t f p c stg flag).2 res hres

/-- C3 witness: the amended implication applied to a concrete fully
successful run. -/
theorem C3_witness :
    (run_complete_flow env_ok "v" "top" "xilinx_7series" "xc7a35t" none none
      false).results = some res_ok ∧ res_ok.stages_failed = [] :=
  ⟨rfl, C3_amended_overall_success_implies_no_failures env_ok "v" "top" "xilinx_7series"
    "xc7a35t" none none false res_ok rfl rfl⟩

/-- C4 counterexample: on an unsupported device the run returns the bare
empty dict (`{}` in the source, `none` here), so the returned result does not
contain a `stages_completed` list at all — empty or otherwise. -/
theorem C4_counterexample :
    run_complete_flow env_fail "v" "top" "bogus_family" "xc7a35t" none none false =
      { success := false, output := "Unsupported device: bogus_family/xc7a35t",
        results := none, trace := [] } ∧
    ¬∃ res, (run_complete_flow env_fail "v" "top" "bogus_family" "xc7a35t" none none
      false).results = some res ∧ res.stages_completed = [] := by
  refine ⟨rfl, ?_⟩
  rintro ⟨res, hres, -⟩
  have hnone : (run_complete_flow env_fail "v" "top" "bogus_family" "xc7a35t" none none
      false).results = none := rfl
  rw [hnone] at hres
  exact Option.noConfusion hres

/-- C4 amended: for every unsupported (family, part) pair the run returns a
validation failure before any adapter is invoked (empty trace), with the
`Unsupported device` message — but the returned results dict is the bare `{}`
(no `stages_completed` key), not a structured result with an empty
`stages_completed` list. -/
theorem C4_amended_unsupported_device_validates_first :
    ∀ env verilog_code top_module device_family device_part constraints stages
        program_fpga,
      flow_validate_device device_family device_part = false →
      run_complete_flow env verilog_code top_module device_family device_part constraints
        stages program_fpga =
      { success := false,
        output := "Unsupported device: " ++ device_family ++ "/" ++ device_part,
        results := none, trace := [] } := by
  intro env v t f p c stg flag hv
  simp [run_complete_flow, hv]

/-- C4 witness: the amended statement at a concrete unsupported family. -/
theorem C4_witness :
    run_complete_flow env_fail "v" "top" "bogus_family" "xc7a35t" none none false =
    { success := false, output := "Unsupported device: bogus_family/xc7a35t",
      results := none, trace := [] } :=
  C4_amended_unsupported_device_validates_first env_fail "v" "top" "bogus_family"
    "xc7a35t" none none false rfl

/-- C7 counterexample: when the implementation adapter raises an unexpected
exception, the run returns success `false` with only the wrapped message and
the bare empty dict — it reports neither the completed stages nor a failed
stage. -/
theorem C7_counterexample :
    run_complete_flow env_impl_raises "v" "top" "xilinx_7series" "xc7a35t" none none
      false =
      { success := false, output := "FPGA flow failed: boom", results := none,
        trace := [("synthesis", some true), ("implementation", none)] } ∧
    ¬∃ res, (run_complete_flow env_impl_raises "v" "top" "xilinx_7series" "xc7a35t" none
      none false).results = some res := by
  refine ⟨rfl, ?_⟩
  rintro ⟨res, hres⟩
  have hnone : (run_complete_flow env_impl_raises "v" "top" "xilinx_7series" "xc7a35t"
      none none false).results = none := rfl
  rw [hnone] at hres
  exact Option.noConfusion hres

/-- C7 amended: every run in which a stage adapter *reports* failure returns
a structured result — the completed stages, exactly the failing stage in
`stages_failed`, and the failing stage's diagnostic text both in the stored
stage record and in the run output; but when a stage adapter *raises* an
unexpected exception the orchestrator returns only success `false`, the
wrapped exception message, and the bare empty dict (no stage reporting). -/
theorem C7_amended_structured_failures_but_bare_exceptions :
    (∀ env verilog_code top_module device_family device_part constraints stages
        program_fpga s,
      (s, some false) ∈ (run_complete_flow env verilog_code top_module device_family
        device_part constraints stages program_fpga).trace →
      ∃ res, (run_complete_flow env verilog_code top_module device_family device_part
          constraints stages program_fpga).results = some res ∧
        res.stages_failed = [s] ∧
        (run_complete_flow env verilog_code top_module device_family device_part
          constraints stages program_fpga).success = false ∧
        (∃ rec, res.stage_results.lookup s = some rec ∧ rec.success = false ∧
          (run_complete_flow env verilog_code top_module device_family device_part
            constraints stages program_fpga).output = stage_fail_message s ++ rec.output)) ∧
    (∀ env verilog_code top_module device_family device_part constraints o₁ r₁ e,
      flow_validate_device device_family device_part = true →
      env.synthesize_design verilog_code top_module device_family device_part constraints =
        .ok (true, o₁, r₁) →
      truthyStr r₁.netlist_json = true →
      env.implement_design (r₁.netlist_json.getD "") top_module device_family device_part
        constraints = .error e →
      run_complete_flow env verilog_code top_module device_family device_part constraints
        none false =
      { success := false, output := "FPGA flow failed: " ++ e, results := none,
        trace := [("synthesis", some true), ("implementation", none)] }) := by
  constructor
  · intro env v t f p c stg flag s hs
    obtain ⟨res, h1, h2, h3, -, h5⟩ :=
      (run_complete_flow_good env v t f p c stg flag).1 s hs
    exact ⟨res, h1, h2, h3, h5⟩
  · intro env v t f p c o₁ r₁ e hv hsynth htr himpl
    simp [run_complete_flow, effective_stages, flow_stages, stage_synthesis,
      stage_implementation, flow_exception, hv, hsynth, htr, himpl, List.lookup]

/-- C7 witness: the exception half instantiated with a concrete raising
adapter. -/
theorem C7_witness :
    run_complete_flow env_impl_raises "v" "top" "xilinx_7series" "xc7a35t" none none
      false =
    { success := false, output := "FPGA flow failed: boom", results := none,
      trace := [("synthesis", some true), ("implementation", none)] } :=
  C7_amended_structured_failures_but_bare_exceptions.2 env_impl_raises "v" "top"
    "xilinx_7series" "xc7a35t" none "synthesis ok" { netlist_json := some "netlist" }
    "boom" rfl rfl rfl rfl

/-- C9: `program_device=true` with `stages=["synthesis"]` yields the effective
stage sequence `[synthesis, programming]`; on a valid device with successful
synthesis, synthesis completes (`stages_completed = ["synthesis"]`) and the
run then fails while processing the programming stage with the
bitstream-dependency error, without ever invoking the programming adapter
(the trace contains only the synthesis invocation) and with no bitstream
record present. -/
theorem C9_program_device_appends_programming :
    effective_stages (some ["synthesis"]) true = ["synthesis", "programming"] ∧
    (∀ env verilog_code top_module device_family device_part constraints o r,
      flow_validate_device device_family device_part = true →
      env.synthesize_design verilog_code top_module device_family device_part constraints =
        .ok (true, o, r) →
      (run_complete_flow env verilog_code top_module device_family device_part constraints
        (some ["synthesis"]) true).success = false ∧
      (run_complete_flow env verilog_code top_module device_family device_part constraints
        (some ["synthesis"]) true).output =
        "Programming requires bitstream generation to be completed first" ∧
      (run_complete_flow env verilog_code top_module device_family device_part constraints
        (some ["synthesis"]) true).trace = [("synthesis", some true)] ∧
      ∃ res, (run_complete_flow env verilog_code top_module device_family device_part
          constraints (some ["synthesis"]) true).results = some res ∧
        res.stages_completed = ["synthesis"] ∧
        res.stage_results.lookup "bitstream_generation" = none) := by
  refine ⟨rfl, ?_⟩
  intro env v t f p c o r hv hsynth
  simp [run_complete_flow, effective_stages, stage_synthesis, stage_implementation,
    stage_bitstream, stage_programming, hv, hsynth, List.lookup]

/-- C9 witness: the scenario with a concrete all-success environment. -/
theorem C9_witness :
    (run_complete_flow env_ok "v" "top" "xilinx_7series" "xc7a35t" none
      (some ["synthesis"]) true).success = false ∧
    (run_complete_flow env_ok "v" "top" "xilinx_7series" "xc7a35t" none
      (some ["synthesis"]) true).output =
      "Programming requires bitstream generation to be completed first" ∧
    (run_complete_flow env_ok "v" "top" "xilinx_7series" "xc7a35t" none
      (some ["synthesis"]) true).trace = [("synthesis", some true)] ∧
    ∃ res, (run_complete_flow env_ok "v" "top" "xilinx_7series" "xc7a35t" none
        (some ["synthesis"]) true).results = some res ∧
      res.stages_completed = ["synthesis"] ∧
      res.stage_results.lookup "bitstream_generation" = none :=
  (C9_program_device_appends_programming.2) env_ok "v" "top" "xilinx_7series" "xc7a35t"
    none "synthesis ok" { netlist_json := some "netlist" } rfl rfl
